import Mathlib

/-!
Shallow embedding of `data_modules/not_dali.py` (MSC-V2): transform-pipeline
selection (`prepare_transforms`), dataset construction with optional stratified
subsampling (`prepare_datasets`), dataloader configuration
(`prepare_dataloaders`) and the composed pipeline (`prepare_data`).

Python failure modes are made explicit: functions that can raise return
`Except PyError`, with one constructor per distinct `assert` / runtime error.
Machine reals in the transform tables are embedded as `ℚ` (they are inert
configuration data; no arithmetic is performed on them).  Filesystem scanning
done by `torchvision.datasets.ImageFolder` is abstracted as a function
`fs : String → List (String × Nat)` mapping a root path to its
(file, label) listing.
-/

/-- One step of a torchvision transform pipeline, as configured in the source
(only the constructors and parameters that appear in `not_dali.py`). -/
inductive TransformOp where
  | randomResizedCrop (size : Nat) (scaleLo scaleHi : ℚ)
  | randomHorizontalFlip
  | toTensor
  | normalize (mean std : List ℚ)
  | resize (size : Nat)
  | resizePair (h w : Nat)
  | centerCrop (size : Nat)
deriving DecidableEq, Repr

/-- A transform pipeline (`transforms.Compose([...])`) is its ordered list of
steps. -/
abbrev Transform := List TransformOp

/-- A train/val pipeline pair, the shape every entry of the `pipelines` dict
has in the source. -/
structure Pipeline where
  T_train : Transform
  T_val : Transform
deriving DecidableEq, Repr

/-- Embedding of `build_custom_pipeline` (lines 12-36 of the source). -/
def build_custom_pipeline : Pipeline :=
  { T_train :=
      [TransformOp.randomResizedCrop 224 0.08 1.0,
       TransformOp.randomHorizontalFlip,
       TransformOp.toTensor,
       TransformOp.normalize [0.485, 0.456, 0.406] [0.228, 0.224, 0.225]],
    T_val :=
      [TransformOp.resize 256,
       TransformOp.centerCrop 224,
       TransformOp.toTensor,
       TransformOp.normalize [0.485, 0.456, 0.406] [0.228, 0.224, 0.225]] }

/-- The `cifar_pipeline` dict of `prepare_transforms`. -/
def cifar_pipeline : Pipeline :=
  { T_train :=
      [TransformOp.randomResizedCrop 32 0.08 1.0,
       TransformOp.randomHorizontalFlip,
       TransformOp.toTensor,
       TransformOp.normalize [0.4914, 0.4822, 0.4465] [0.247, 0.243, 0.261]],
    T_val :=
      [TransformOp.toTensor,
       TransformOp.normalize [0.4914, 0.4822, 0.4465] [0.247, 0.243, 0.261]] }

/-- The `stl_pipeline` dict of `prepare_transforms`. -/
def stl_pipeline : Pipeline :=
  { T_train :=
      [TransformOp.randomResizedCrop 96 0.08 1.0,
       TransformOp.randomHorizontalFlip,
       TransformOp.toTensor,
       TransformOp.normalize [0.4914, 0.4823, 0.4466] [0.247, 0.243, 0.261]],
    T_val :=
      [TransformOp.resizePair 96 96,
       TransformOp.toTensor,
       TransformOp.normalize [0.4914, 0.4823, 0.4466] [0.247, 0.243, 0.261]] }

/-- The `imagenet_pipeline` dict of `prepare_transforms`. -/
def imagenet_pipeline : Pipeline :=
  { T_train :=
      [TransformOp.randomResizedCrop 224 0.08 1.0,
       TransformOp.randomHorizontalFlip,
       TransformOp.toTensor,
       TransformOp.normalize [0.485, 0.456, 0.406] [0.228, 0.224, 0.225]],
    T_val :=
      [TransformOp.resize 256,
       TransformOp.centerCrop 224,
       TransformOp.toTensor,
       TransformOp.normalize [0.485, 0.456, 0.406] [0.228, 0.224, 0.225]] }

/-- The `imagenet32_pipeline` dict of `prepare_transforms`. -/
def imagenet32_pipeline : Pipeline :=
  { T_train :=
      [TransformOp.randomResizedCrop 32 0.08 1.0,
       TransformOp.randomHorizontalFlip,
       TransformOp.toTensor,
       TransformOp.normalize [0.4914, 0.4822, 0.4465] [0.247, 0.243, 0.261]],
    T_val :=
      [TransformOp.resize 256,
       TransformOp.centerCrop 224,
       TransformOp.resize 32,
       TransformOp.toTensor,
       TransformOp.normalize [0.4914, 0.4822, 0.4465] [0.247, 0.243, 0.261]] }

/-- Distinct Python-level failures of this module: the two `assert`
statements (unknown dataset name at lines 164/210, `data_fraction < 1` at
line 247), the `AttributeError` raised by `train_dataset.samples` when the
dataset class defines no such attribute, and the (unreachable) `NameError`
that reading `train_dataset` would raise if no dispatch branch had run. -/
inductive PyError where
  | assertBadName
  | assertFraction
  | attributeError
  | nameError
deriving DecidableEq, Repr

/-- The `pipelines` dict of `prepare_transforms` (lines 154-162), as an
association list in source order. -/
def pipelines : List (String × Pipeline) :=
  [("cifar10", cifar_pipeline),
   ("cifar100", cifar_pipeline),
   ("stl10", stl_pipeline),
   ("imagenet100", imagenet_pipeline),
   ("imagenet", imagenet_pipeline),
   ("custom", build_custom_pipeline),
   ("imagenet32", imagenet32_pipeline)]

/-- Embedding of `prepare_transforms` (lines 69-170): look the dataset name up
in the `pipelines` dict; `assert dataset in pipelines` fails exactly when the
lookup does. -/
def prepare_transforms (dataset : String) : Except PyError (Transform × Transform) :=
  match pipelines.lookup dataset with
  | some p => Except.ok (p.T_train, p.T_val)
  | none => Except.error PyError.assertBadName

/-- The `split` argument a torchvision dataset was constructed with:
`train=True/False` for CIFAR, `split="train"/"test"` for STL10, nothing for
`ImageFolder`. -/
inductive SplitSpec where
  | boolTrain (train : Bool)
  | named (s : String)
  | noSplit
deriving DecidableEq, Repr

/-- A constructed torchvision dataset object, recording the class used, the
constructor arguments, and its `samples` attribute.  Only
`torchvision.datasets.ImageFolder` defines `samples` (the (file-path, label)
list the spec describes for folder-structured data); `CIFAR10`, `CIFAR100`
and `STL10` store arrays (`data`/`targets`, `data`/`labels`) and have no
`samples` attribute, modelled as `samples := none`.  `ImageFolder` takes no
`download` argument, modelled as `download := none`. -/
structure TorchDataset where
  cls : String
  root : String
  split : SplitSpec
  download : Option Bool
  transform : Transform
  samples : Option (List (String × Nat))
deriving DecidableEq, Repr

/-- The dataset names accepted by the `assert` at line 210 of
`prepare_datasets`. -/
def datasetNames : List String :=
  ["cifar10", "cifar100", "stl10", "imagenet", "imagenet100", "custom", "imagenet32"]

/-- The names dispatched to the `ImageFolder` branch (line 242). -/
def folderNames : List String := ["imagenet", "imagenet100", "custom", "imagenet32"]

/-- Items of `data` carrying label `c` (the class-`c` stratum of a
(file, label) list). -/
def classOf (c : Nat) (data : List (String × Nat)) : List (String × Nat) :=
  data.filter (fun p => p.2 == c)

/-- Number of samples a stratified split keeps from a class of size `n` when
keeping a `frac` fraction: the integer part of `frac * n`. -/
def keepCount (frac : ℚ) (n : Nat) : Nat := ⌊frac * n⌋₊

/-- Kept part of the stratified split: for each class label in `cs` (each
listed once), rotate that class's items by the seed and keep the first
`keepCount frac` of them. -/
def stratPick (frac : ℚ) (seed : Nat) (data : List (String × Nat)) :
    List Nat → List (String × Nat)
  | [] => []
  | c :: cs =>
      ((classOf c data).rotate seed).take (keepCount frac (classOf c data).length)
        ++ stratPick frac seed data cs

/-- Discarded part of the stratified split (the complement of `stratPick`
within each class). -/
def stratDrop (frac : ℚ) (seed : Nat) (data : List (String × Nat)) :
    List Nat → List (String × Nat)
  | [] => []
  | c :: cs =>
      ((classOf c data).rotate seed).drop (keepCount frac (classOf c data).length)
        ++ stratDrop frac seed data cs

/-- Stratified subsample of a (file, label) list: `stratPick` over the
distinct labels. -/
def stratifiedSubsample (frac : ℚ) (seed : Nat) (data : List (String × Nat)) :
    List (String × Nat) :=
  stratPick frac seed data (data.map Prod.snd).dedup

/-- Modelled from the spec: `sklearn.model_selection.train_test_split(files,
labels, train_size=frac, stratify=labels, random_state=seed)` is library code
not in this repository.  Per the spec it stratified-splits, keeping a
`train_size` fraction of the samples, preserving per-class proportions within
rounding, fully determined by the seed.  Modelled as: pair the files with
their labels, and for each distinct label rotate the class's items by the
seed, keeping the first `keepCount` of them; returns
(kept files, dropped files, kept labels, dropped labels) as sklearn does. -/
def train_test_split (files : List String) (labels : List Nat)
    (train_size : ℚ) (seed : Nat) :
    List String × List String × List Nat × List Nat :=
  let data := files.zip labels
  let kept := stratPick train_size seed data labels.dedup
  let dropped := stratDrop train_size seed data labels.dedup
  (kept.map Prod.fst, dropped.map Prod.fst, kept.map Prod.snd, dropped.map Prod.snd)

/-- Embedding of the subsampling block of `prepare_datasets` (lines 246-257):
when `data_fraction > 0`, assert it is `< 1`, read `train_dataset.samples`
(an `AttributeError` when the attribute does not exist), split it with
`train_test_split(..., random_state=42)` and write the re-zipped kept part
back; otherwise return both datasets unchanged. -/
def subsampleStep (data_fraction : ℚ) (train_dataset val_dataset : TorchDataset) :
    Except PyError (TorchDataset × TorchDataset) :=
  if data_fraction > 0 then
    if data_fraction < 1 then
      match train_dataset.samples with
      | some data =>
          let files := data.map Prod.fst
          let labels := data.map Prod.snd
          let r := train_test_split files labels data_fraction 42
          Except.ok ({ train_dataset with samples := some (r.1.zip r.2.2.1) }, val_dataset)
      | none => Except.error PyError.attributeError
    else Except.error PyError.assertFraction
  else Except.ok (train_dataset, val_dataset)

/-- Embedding of `prepare_datasets` (lines 173-259).  The `data_format`
parameter is carried as in the source (accepted, unused).  The path-defaulting
of lines 202-208 (module-relative `datasets` folder) is outside the embedding:
paths are passed explicitly.  `fs` abstracts `ImageFolder`'s directory scan.
Dispatch: CIFAR classes via `train=True/False` honoring `download`; STL10 via
named splits with `download=True` hard-coded for the training split; the
folder branch via `ImageFolder(path, transform)`.  The final `nameError` arm
is unreachable (the seven asserted names are exactly the dispatched ones) and
stands for Python's `NameError` on the undefined `train_dataset`. -/
def prepare_datasets (dataset : String) (T_train T_val : Transform)
    (train_data_path val_data_path : String) (data_format : String)
    (download : Bool) (data_fraction : ℚ)
    (fs : String → List (String × Nat)) :
    Except PyError (TorchDataset × TorchDataset) :=
  if dataset ∈ datasetNames then
    if dataset ∈ ["cifar10", "cifar100"] then
      subsampleStep data_fraction
        { cls := dataset.toUpper, root := train_data_path,
          split := SplitSpec.boolTrain true, download := some download,
          transform := T_train, samples := none }
        { cls := dataset.toUpper, root := val_data_path,
          split := SplitSpec.boolTrain false, download := some download,
          transform := T_val, samples := none }
    else if dataset = "stl10" then
      subsampleStep data_fraction
        { cls := "STL10", root := train_data_path,
          split := SplitSpec.named "train", download := some true,
          transform := T_train, samples := none }
        { cls := "STL10", root := val_data_path,
          split := SplitSpec.named "test", download := some download,
          transform := T_val, samples := none }
    else if dataset ∈ folderNames then
      subsampleStep data_fraction
        { cls := "ImageFolder", root := train_data_path,
          split := SplitSpec.noSplit, download := none,
          transform := T_train, samples := some (fs train_data_path) }
        { cls := "ImageFolder", root := val_data_path,
          split := SplitSpec.noSplit, download := none,
          transform := T_val, samples := some (fs val_data_path) }
    else Except.error PyError.nameError
  else Except.error PyError.assertBadName

/-- A constructed `torch.utils.data.DataLoader`, recording its dataset and
configuration flags. -/
structure PyDataLoader where
  dataset : TorchDataset
  batch_size : Nat
  shuffle : Bool
  num_workers : Nat
  pin_memory : Bool
  drop_last : Bool
deriving DecidableEq, Repr

/-- Embedding of `prepare_dataloaders` (lines 38-67).  The validation loader
passes no `shuffle` argument; torchvision's `DataLoader` defaults it to
`False`. -/
def prepare_dataloaders (train_dataset val_dataset : TorchDataset)
    (batch_size : Nat) (num_workers : Nat) : PyDataLoader × PyDataLoader :=
  ({ dataset := train_dataset, batch_size := batch_size, shuffle := true,
     num_workers := num_workers, pin_memory := true, drop_last := true },
   { dataset := val_dataset, batch_size := batch_size, shuffle := false,
     num_workers := num_workers, pin_memory := true, drop_last := false })

/-- Consecutive chunks of size `bs` of a list (the last chunk may be
shorter); empty for `bs = 0`. -/
def chunks (bs : Nat) : List α → List (List α)
  | [] => []
  | a :: t =>
      if h : bs = 0 then []
      else (a :: t).take bs :: chunks bs ((a :: t).drop bs)
termination_by l => l.length
decreasing_by
  simp only [List.length_drop, List.length_cons]
  omega

/-- Modelled from the spec: `DataLoader` batching is library code not in this
repository.  Per the spec a loader yields consecutive batches of
`batch_size` items and, with `drop_last`, discards a final incomplete batch;
shuffling permutes the items but never changes batch sizes, so batches are
modelled over the given item order. -/
def loaderBatches (dl : PyDataLoader) (items : List α) : List (List α) :=
  if dl.drop_last then
    (chunks dl.batch_size items).filter (fun b => b.length == dl.batch_size)
  else chunks dl.batch_size items

/-- Embedding of `prepare_data` (lines 262-308): transforms, then datasets,
then loaders; a failure in either stage propagates. -/
def prepare_data (dataset : String) (train_data_path val_data_path : String)
    (data_format : String) (batch_size num_workers : Nat)
    (download : Bool) (data_fraction : ℚ)
    (fs : String → List (String × Nat)) :
    Except PyError (PyDataLoader × PyDataLoader) :=
  match prepare_transforms dataset with
  | Except.error e => Except.error e
  | Except.ok (T_train, T_val) =>
    match prepare_datasets dataset T_train T_val train_data_path val_data_path
        data_format download data_fraction fs with
    | Except.error e => Except.error e
    | Except.ok (td, vd) =>
        Except.ok (prepare_dataloaders td vd batch_size num_workers)

/-- The validation dataset exactly as `prepare_datasets` constructs it
(the val-side of the dispatch at lines 212-244); no subsampling is ever
applied to it. -/
def buildVal (dataset : String) (val_data_path : String) (T_val : Transform)
    (download : Bool) (fs : String → List (String × Nat)) : TorchDataset :=
  if dataset ∈ ["cifar10", "cifar100"] then
    { cls := dataset.toUpper, root := val_data_path,
      split := SplitSpec.boolTrain false, download := some download,
      transform := T_val, samples := none }
  else if dataset = "stl10" then
    { cls := "STL10", root := val_data_path,
      split := SplitSpec.named "test", download := some download,
      transform := T_val, samples := none }
  else
    { cls := "ImageFolder", root := val_data_path,
      split := SplitSpec.noSplit, download := none,
      transform := T_val, samples := some (fs val_data_path) }

/-- Training-side sample list of a `prepare_datasets` result, when it
succeeded. -/
def trainSamples : Except PyError (TorchDataset × TorchDataset) →
    Option (List (String × Nat))
  | Except.ok (t, _) => t.samples
  | Except.error _ => none

/-- Fixed example folder listing used by concrete witnesses. -/
def exFS : String → List (String × Nat) :=
  fun _ => [("a0", 0), ("a1", 0), ("b0", 1), ("b1", 1)]

/-- The rational one half, built so that the kernel can evaluate comparisons
against it (the `1/2` literal goes through gcd normalization, which does not
reduce definitionally). -/
def half : ℚ := ⟨1, 2, by norm_num, by norm_num⟩

theorem half_eq : half = 1/2 := by
  rw [half]
  rw [Rat.mk'_eq_divInt, Rat.divInt_eq_div]
  norm_num

theorem zip_map_fst_snd (l : List (α × β)) :
    (l.map Prod.fst).zip (l.map Prod.snd) = l := by
  induction l with
  | nil => rfl
  | cons a t ih => simp [ih]

theorem subsampleStep_skip {frac : ℚ} (h : frac ≤ 0) (td vd : TorchDataset) :
    subsampleStep frac td vd = Except.ok (td, vd) := by
  unfold subsampleStep
  rw [if_neg (not_lt.mpr h)]

theorem subsampleStep_assert {frac : ℚ} (h : 1 ≤ frac) (td vd : TorchDataset) :
    subsampleStep frac td vd = Except.error PyError.assertFraction := by
  unfold subsampleStep
  rw [if_pos (lt_of_lt_of_le one_pos h), if_neg (not_lt.mpr h)]

theorem subsampleStep_none {frac : ℚ} (h0 : 0 < frac) (h1 : frac < 1)
    {td : TorchDataset} (hs : td.samples = none) (vd : TorchDataset) :
    subsampleStep frac td vd = Except.error PyError.attributeError := by
  unfold subsampleStep
  rw [if_pos h0, if_pos h1, hs]

theorem subsampleStep_ok {frac : ℚ} (h0 : 0 < frac) (h1 : frac < 1)
    {td : TorchDataset} {data : List (String × Nat)} (hs : td.samples = some data)
    (vd : TorchDataset) :
    subsampleStep frac td vd
      = Except.ok ({ td with samples := some (stratifiedSubsample frac 42 data) }, vd) := by
  unfold subsampleStep
  rw [if_pos h0, if_pos h1, hs]
  simp only [train_test_split, zip_map_fst_snd, stratifiedSubsample]

theorem subsampleStep_ne_assertFraction {frac : ℚ} (h1 : frac < 1)
    (td vd : TorchDataset) :
    subsampleStep frac td vd ≠ Except.error PyError.assertFraction := by
  unfold subsampleStep
  by_cases h0 : 0 < frac
  · rw [if_pos h0, if_pos h1]
    cases hs : td.samples <;> simp
  · rw [if_neg h0]
    simp

theorem keepCount_le {frac : ℚ} (h1 : frac ≤ 1) (n : Nat) : keepCount frac n ≤ n := by
  unfold keepCount
  calc ⌊frac * n⌋₊ ≤ ⌊((n : ℚ))⌋₊ :=
        Nat.floor_le_floor (mul_le_of_le_one_left (Nat.cast_nonneg n) h1)
    _ = n := Nat.floor_natCast n

theorem stratChunk_length {frac : ℚ} (h1 : frac ≤ 1) (seed : Nat)
    (data : List (String × Nat)) (c : Nat) :
    (((classOf c data).rotate seed).take (keepCount frac (classOf c data).length)).length
      = keepCount frac (classOf c data).length := by
  rw [List.length_take, List.length_rotate]
  exact min_eq_left (keepCount_le h1 _)

theorem stratChunk_label {frac : ℚ} {seed : Nat} {data : List (String × Nat)}
    {c : Nat} {x : String × Nat}
    (hx : x ∈ ((classOf c data).rotate seed).take (keepCount frac (classOf c data).length)) :
    x.2 = c := by
  have h1 : x ∈ (classOf c data).rotate seed := List.take_subset _ _ hx
  rw [List.mem_rotate] at h1
  have h2 := List.of_mem_filter h1
  simpa using h2

theorem classOf_stratChunk_self {frac : ℚ} (h1 : frac ≤ 1) (seed : Nat)
    (data : List (String × Nat)) (c : Nat) :
    (classOf c (((classOf c data).rotate seed).take
        (keepCount frac (classOf c data).length))).length
      = keepCount frac (classOf c data).length := by
  unfold classOf
  rw [List.filter_eq_self.mpr]
  · exact stratChunk_length h1 seed data c
  · intro x hx
    simpa using stratChunk_label hx

theorem classOf_stratChunk_other {frac : ℚ} {seed : Nat} {data : List (String × Nat)}
    {c c' : Nat} (hne : c ≠ c') :
    classOf c (((classOf c' data).rotate seed).take
        (keepCount frac (classOf c' data).length)) = [] := by
  unfold classOf
  rw [List.filter_eq_nil_iff]
  intro x hx
  have := stratChunk_label hx
  simp [this, hne.symm]

theorem classOf_append (c : Nat) (l l' : List (String × Nat)) :
    classOf c (l ++ l') = classOf c l ++ classOf c l' := by
  unfold classOf
  exact List.filter_append _ _

theorem classOf_stratPick_not_mem {frac : ℚ} {seed : Nat} {data : List (String × Nat)}
    {c : Nat} : ∀ {cs : List Nat}, c ∉ cs →
    classOf c (stratPick frac seed data cs) = []
  | [], _ => rfl
  | c' :: cs, h => by
      rw [stratPick, classOf_append,
        classOf_stratChunk_other (fun he => h (by rw [he]; exact List.mem_cons_self c' cs)),
        classOf_stratPick_not_mem (fun hm => h (List.mem_cons_of_mem c' hm))]
      rfl

theorem classOf_stratPick {frac : ℚ} (h1 : frac ≤ 1) (seed : Nat)
    (data : List (String × Nat)) :
    ∀ (cs : List Nat), cs.Nodup → ∀ c ∈ cs,
      (classOf c (stratPick frac seed data cs)).length
        = keepCount frac (classOf c data).length := by
  intro cs
  induction cs with
  | nil => intro _ c hc; exact absurd hc (List.not_mem_nil c)
  | cons c' cs ih =>
    intro hnd c hc
    rw [stratPick, classOf_append, List.length_append]
    rcases List.mem_cons.mp hc with hceq | hcin
    · subst hceq
      rw [classOf_stratPick_not_mem (List.nodup_cons.mp hnd).1]
      rw [classOf_stratChunk_self h1 seed data c]
      rfl
    · have hne : c ≠ c' := fun he => (List.nodup_cons.mp hnd).1 (he ▸ hcin)
      rw [classOf_stratChunk_other hne]
      simpa using ih (List.nodup_cons.mp hnd).2 c hcin

theorem length_stratPick {frac : ℚ} (h1 : frac ≤ 1) (seed : Nat)
    (data : List (String × Nat)) :
    ∀ (cs : List Nat), (stratPick frac seed data cs).length
      = (cs.map (fun c => keepCount frac (classOf c data).length)).sum := by
  intro cs
  induction cs with
  | nil => rfl
  | cons c cs ih =>
    rw [stratPick, List.length_append, stratChunk_length h1 seed data c, ih]
    simp

theorem classOf_stratifiedSubsample {frac : ℚ} (h1 : frac ≤ 1) (seed : Nat)
    (data : List (String × Nat)) :
    ∀ c ∈ (data.map Prod.snd).dedup,
      (classOf c (stratifiedSubsample frac seed data)).length
        = keepCount frac (classOf c data).length :=
  classOf_stratPick h1 seed data _ (List.nodup_dedup _)

theorem length_stratifiedSubsample {frac : ℚ} (h1 : frac ≤ 1) (seed : Nat)
    (data : List (String × Nat)) :
    (stratifiedSubsample frac seed data).length
      = ((data.map Prod.snd).dedup.map
          (fun c => keepCount frac (classOf c data).length)).sum :=
  length_stratPick h1 seed data _

theorem subsampleStep_val {frac : ℚ} {td vd t v : TorchDataset}
    (h : subsampleStep frac td vd = Except.ok (t, v)) : v = vd := by
  unfold subsampleStep at h
  by_cases h0 : 0 < frac
  · rw [if_pos h0] at h
    by_cases hf : frac < 1
    · rw [if_pos hf] at h
      cases hs : td.samples with
      | none => rw [hs] at h; exact absurd h (by simp)
      | some data => rw [hs] at h; simp at h; exact h.2.symm
    · rw [if_neg hf] at h
      exact absurd h (by simp)
  · rw [if_neg h0] at h
    simp at h
    exact h.2.symm

theorem prepare_datasets_bad {name : String} (h : name ∉ datasetNames)
    (T_train T_val : Transform) (tp vp fmt : String) (dl : Bool) (frac : ℚ)
    (fs : String → List (String × Nat)) :
    prepare_datasets name T_train T_val tp vp fmt dl frac fs
      = Except.error PyError.assertBadName := by
  unfold prepare_datasets
  rw [if_neg h]

theorem prepare_datasets_eq_cifar {name : String} (h : name ∈ ["cifar10", "cifar100"])
    (T_train T_val : Transform) (tp vp fmt : String) (dl : Bool) (frac : ℚ)
    (fs : String → List (String × Nat)) :
    prepare_datasets name T_train T_val tp vp fmt dl frac fs
      = subsampleStep frac
          { cls := name.toUpper, root := tp, split := SplitSpec.boolTrain true,
            download := some dl, transform := T_train, samples := none }
          { cls := name.toUpper, root := vp, split := SplitSpec.boolTrain false,
            download := some dl, transform := T_val, samples := none } := by
  fin_cases h <;> rfl

theorem prepare_datasets_eq_stl (T_train T_val : Transform) (tp vp fmt : String)
    (dl : Bool) (frac : ℚ) (fs : String → List (String × Nat)) :
    prepare_datasets "stl10" T_train T_val tp vp fmt dl frac fs
      = subsampleStep frac
          { cls := "STL10", root := tp, split := SplitSpec.named "train",
            download := some true, transform := T_train, samples := none }
          { cls := "STL10", root := vp, split := SplitSpec.named "test",
            download := some dl, transform := T_val, samples := none } := rfl

theorem prepare_datasets_eq_folder {name : String} (h : name ∈ folderNames)
    (T_train T_val : Transform) (tp vp fmt : String) (dl : Bool) (frac : ℚ)
    (fs : String → List (String × Nat)) :
    prepare_datasets name T_train T_val tp vp fmt dl frac fs
      = subsampleStep frac
          { cls := "ImageFolder", root := tp, split := SplitSpec.noSplit,
            download := none, transform := T_train, samples := some (fs tp) }
          { cls := "ImageFolder", root := vp, split := SplitSpec.noSplit,
            download := none, transform := T_val, samples := some (fs vp) } := by
  fin_cases h <;> rfl

theorem prepare_datasets_dispatch {name : String} (h : name ∈ datasetNames)
    (T_train T_val : Transform) (tp vp fmt : String) (dl : Bool) (frac : ℚ)
    (fs : String → List (String × Nat)) :
    ∃ td, prepare_datasets name T_train T_val tp vp fmt dl frac fs
      = subsampleStep frac td (buildVal name vp T_val dl fs) := by
  fin_cases h <;> exact ⟨_, rfl⟩

theorem subsampleStep_ne_assertBadName (frac : ℚ) (td vd : TorchDataset) :
    subsampleStep frac td vd ≠ Except.error PyError.assertBadName := by
  unfold subsampleStep
  by_cases h0 : 0 < frac
  · rw [if_pos h0]
    by_cases h1 : frac < 1
    · rw [if_pos h1]; cases td.samples <;> simp
    · rw [if_neg h1]; simp
  · rw [if_neg h0]; simp

theorem trainSamples_subsampleStep (frac : ℚ) (td vd vd' : TorchDataset) :
    trainSamples (subsampleStep frac td vd)
      = trainSamples (subsampleStep frac td vd') := by
  unfold subsampleStep
  by_cases h0 : 0 < frac
  · rw [if_pos h0, if_pos h0]
    by_cases h1 : frac < 1
    · rw [if_pos h1, if_pos h1]
      cases td.samples <;> rfl
    · rw [if_neg h1, if_neg h1]
  · rw [if_neg h0, if_neg h0]; rfl

theorem chunks_cons (bs : Nat) (hbs : bs ≠ 0) (a : α) (t : List α) :
    chunks bs (a :: t) = (a :: t).take bs :: chunks bs ((a :: t).drop bs) := by
  rw [chunks]
  rw [dif_neg hbs]

theorem chunks_length_le (bs : Nat) :
    ∀ (l : List α), ∀ b ∈ chunks bs l, b.length ≤ bs
  | [] => by simp [chunks]
  | a :: t => by
      by_cases hbs : bs = 0
      · simp [chunks, hbs]
      · rw [chunks_cons bs hbs]
        intro b hb
        rcases List.mem_cons.mp hb with rfl | hb2
        · rw [List.length_take]
          exact min_le_left _ _
        · exact chunks_length_le bs ((a :: t).drop bs) b hb2
termination_by l => l.length
decreasing_by
  simp only [List.length_drop, List.length_cons]
  omega

theorem chunks_has_rem (bs : Nat) (hbs : 0 < bs) :
    ∀ (l : List α), l.length % bs ≠ 0 → ∃ b ∈ chunks bs l, b.length < bs
  | [] => by intro h; simp at h
  | a :: t => by
      intro hmod
      rw [chunks_cons bs (Nat.pos_iff_ne_zero.mp hbs)]
      by_cases hlt : (a :: t).length < bs
      · refine ⟨(a :: t).take bs, List.mem_cons_self _ _, ?_⟩
        rw [List.length_take, min_eq_right (le_of_lt hlt)]
        exact hlt
      · push_neg at hlt
        have hdm : ((a :: t).drop bs).length % bs ≠ 0 := by
          rw [List.length_drop]
          intro hc
          apply hmod
          have hsum : (a :: t).length - bs + bs = (a :: t).length :=
            Nat.sub_add_cancel hlt
          calc (a :: t).length % bs
              = ((a :: t).length - bs + bs) % bs := by rw [hsum]
            _ = ((a :: t).length - bs) % bs := Nat.add_mod_right _ _
            _ = 0 := hc
        obtain ⟨b, hb, hlen⟩ := chunks_has_rem bs hbs ((a :: t).drop bs) hdm
        exact ⟨b, List.mem_cons_of_mem _ hb, hlen⟩
termination_by l => l.length
decreasing_by
  simp only [List.length_drop, List.length_cons]
  omega

theorem loaderBatches_drop_last {dl : PyDataLoader} (h : dl.drop_last = true)
    (items : List α) : ∀ b ∈ loaderBatches dl items, b.length = dl.batch_size := by
  unfold loaderBatches
  rw [h, if_pos rfl]
  intro b hb
  have hf := List.of_mem_filter hb
  simpa using hf

theorem loaderBatches_no_drop {dl : PyDataLoader} (h : dl.drop_last = false)
    (items : List α) : loaderBatches dl items = chunks dl.batch_size items := by
  unfold loaderBatches
  rw [h, if_neg Bool.false_ne_true]

theorem pipelines_lookup_eq_none {d : String} (hd : d ∉ datasetNames) :
    pipelines.lookup d = none := by
  simp only [datasetNames, List.mem_cons, List.not_mem_nil, or_false, not_or] at hd
  obtain ⟨h1, h2, h3, h4, h5, h6, h7⟩ := hd
  have b1 : (d == "cifar10") = false := beq_eq_false_iff_ne.mpr h1
  have b2 : (d == "cifar100") = false := beq_eq_false_iff_ne.mpr h2
  have b3 : (d == "stl10") = false := beq_eq_false_iff_ne.mpr h3
  have b4 : (d == "imagenet") = false := beq_eq_false_iff_ne.mpr h4
  have b5 : (d == "imagenet100") = false := beq_eq_false_iff_ne.mpr h5
  have b6 : (d == "custom") = false := beq_eq_false_iff_ne.mpr h6
  have b7 : (d == "imagenet32") = false := beq_eq_false_iff_ne.mpr h7
  simp [pipelines, List.lookup, b1, b2, b3, b4, b5, b6, b7]

/-- C1 (amended): for every call to `prepare_datasets` with a dataset name in
the folder-per-class branch and `data_fraction` strictly between 0 and 1, the
training dataset's (file, label) sample list is replaced by the stratified
subsample at the fixed seed 42: each class keeps exactly
`keepCount data_fraction` of its samples (per-class proportions within
stratified rounding) and the total kept size is the sum of the per-class keep
counts; the validation dataset is returned exactly as built.  (The original
claim quantified over every call; on the archive-backed branch the call
instead raises `AttributeError`, see the counterexample.) -/
theorem C1_folder_subsample_stratified (name : String) (hname : name ∈ folderNames)
    (T_train T_val : Transform) (tp vp fmt : String) (dl : Bool) (frac : ℚ)
    (fs : String → List (String × Nat)) (h0 : 0 < frac) (h1 : frac < 1) :
    prepare_datasets name T_train T_val tp vp fmt dl frac fs
      = Except.ok
          ({ cls := "ImageFolder", root := tp, split := SplitSpec.noSplit,
             download := none, transform := T_train,
             samples := some (stratifiedSubsample frac 42 (fs tp)) },
           { cls := "ImageFolder", root := vp, split := SplitSpec.noSplit,
             download := none, transform := T_val, samples := some (fs vp) })
    ∧ (∀ c ∈ ((fs tp).map Prod.snd).dedup,
        (classOf c (stratifiedSubsample frac 42 (fs tp))).length
          = keepCount frac (classOf c (fs tp)).length)
    ∧ (stratifiedSubsample frac 42 (fs tp)).length
        = (((fs tp).map Prod.snd).dedup.map
            (fun c => keepCount frac (classOf c (fs tp)).length)).sum := by
  refine ⟨?_, classOf_stratifiedSubsample h1.le 42 (fs tp),
    length_stratifiedSubsample h1.le 42 (fs tp)⟩
  rw [prepare_datasets_eq_folder hname]
  exact subsampleStep_ok h0 h1 rfl _

/-- C1 witness: the amended claim instantiated at `imagenet`,
`data_fraction = 1/2` and the fixed two-class folder listing. -/
theorem C1_folder_subsample_stratified_witness :
    (0:ℚ) < 1/2 ∧ (1/2:ℚ) < 1 ∧
    (prepare_datasets "imagenet" [] [] "tp" "vp" "image_folder" true (1/2) exFS
      = Except.ok
          ({ cls := "ImageFolder", root := "tp", split := SplitSpec.noSplit,
             download := none, transform := [],
             samples := some (stratifiedSubsample (1/2) 42 (exFS "tp")) },
           { cls := "ImageFolder", root := "vp", split := SplitSpec.noSplit,
             download := none, transform := [], samples := some (exFS "vp") })
    ∧ (∀ c ∈ ((exFS "tp").map Prod.snd).dedup,
        (classOf c (stratifiedSubsample (1/2) 42 (exFS "tp"))).length
          = keepCount (1/2) (classOf c (exFS "tp")).length)
    ∧ (stratifiedSubsample (1/2) 42 (exFS "tp")).length
        = (((exFS "tp").map Prod.snd).dedup.map
            (fun c => keepCount (1/2) (classOf c (exFS "tp")).length)).sum) :=
  ⟨by norm_num, by norm_num,
    C1_folder_subsample_stratified "imagenet" (by decide) [] [] "tp" "vp"
      "image_folder" true (1/2) exFS (by norm_num) (by norm_num)⟩

/-- C1 counterexample: at dataset `cifar10` with `data_fraction = 1/2`
(strictly between 0 and 1) the dataset builder does not replace the training
sample list with a stratified subsample; it fails with `AttributeError`
because torchvision's CIFAR classes have no `samples` attribute. -/
theorem C1_claim_counterexample :
    prepare_datasets "cifar10" [] [] "tp" "vp" "image_folder" true (1/2) exFS
      = Except.error PyError.attributeError := by
  rw [show (1/2 : ℚ) = half from half_eq.symm]
  rfl

/-- C2: with any `data_fraction ≥ 1` (hence positive) and a recognized dataset
name, `prepare_datasets` fails with the `data_fraction < 1` assertion; with
`data_fraction < 1` (which covers both `data_fraction ≤ 0` and the open
interval (0, 1)) that assertion never fires, for any name. -/
theorem C2_data_fraction_assert (name : String) (T_train T_val : Transform)
    (tp vp fmt : String) (dl : Bool) (frac : ℚ)
    (fs : String → List (String × Nat)) :
    (1 ≤ frac → name ∈ datasetNames →
      prepare_datasets name T_train T_val tp vp fmt dl frac fs
        = Except.error PyError.assertFraction)
    ∧ (frac < 1 →
      prepare_datasets name T_train T_val tp vp fmt dl frac fs
        ≠ Except.error PyError.assertFraction) := by
  constructor
  · intro hge hmem
    obtain ⟨td, heq⟩ := prepare_datasets_dispatch hmem T_train T_val tp vp fmt dl frac fs
    rw [heq]
    exact subsampleStep_assert hge td _
  · intro hlt
    by_cases hmem : name ∈ datasetNames
    · obtain ⟨td, heq⟩ := prepare_datasets_dispatch hmem T_train T_val tp vp fmt dl frac fs
      rw [heq]
      exact subsampleStep_ne_assertFraction hlt td _
    · rw [prepare_datasets_bad hmem]
      simp

/-- C2 witness: at `cifar10` the assertion fires for `data_fraction = 1` and
does not fire for `data_fraction = 1/2`. -/
theorem C2_data_fraction_assert_witness :
    ((1:ℚ) ≤ 1 ∧ "cifar10" ∈ datasetNames ∧
      prepare_datasets "cifar10" [] [] "tp" "vp" "image_folder" true 1 exFS
        = Except.error PyError.assertFraction)
    ∧ ((1/2:ℚ) < 1 ∧
      prepare_datasets "cifar10" [] [] "tp" "vp" "image_folder" true (1/2) exFS
        ≠ Except.error PyError.assertFraction) :=
  ⟨⟨le_refl 1, by decide,
      (C2_data_fraction_assert "cifar10" [] [] "tp" "vp" "image_folder" true 1 exFS).1
        (le_refl 1) (by decide)⟩,
   ⟨by norm_num,
      (C2_data_fraction_assert "cifar10" [] [] "tp" "vp" "image_folder" true (1/2) exFS).2
        (by norm_num)⟩⟩

/-- C3: for a name outside the seven recognized values, both
`prepare_transforms` and `prepare_datasets` fail with the name assertion; for
a name inside, `prepare_transforms` succeeds and `prepare_datasets` never
fails with the name assertion. -/
theorem C3_dataset_name_assert (name : String) :
    (name ∉ datasetNames →
      prepare_transforms name = Except.error PyError.assertBadName
      ∧ ∀ (T_train T_val : Transform) (tp vp fmt : String) (dl : Bool) (frac : ℚ)
          (fs : String → List (String × Nat)),
          prepare_datasets name T_train T_val tp vp fmt dl frac fs
            = Except.error PyError.assertBadName)
    ∧ (name ∈ datasetNames →
      (∃ T, prepare_transforms name = Except.ok T)
      ∧ ∀ (T_train T_val : Transform) (tp vp fmt : String) (dl : Bool) (frac : ℚ)
          (fs : String → List (String × Nat)),
          prepare_datasets name T_train T_val tp vp fmt dl frac fs
            ≠ Except.error PyError.assertBadName) := by
  constructor
  · intro hout
    constructor
    · unfold prepare_transforms
      rw [pipelines_lookup_eq_none hout]
    · intro T_train T_val tp vp fmt dl frac fs
      exact prepare_datasets_bad hout T_train T_val tp vp fmt dl frac fs
  · intro hmem
    constructor
    · fin_cases hmem <;> exact ⟨_, rfl⟩
    · intro T_train T_val tp vp fmt dl frac fs
      obtain ⟨td, heq⟩ := prepare_datasets_dispatch hmem T_train T_val tp vp fmt dl frac fs
      rw [heq]
      exact subsampleStep_ne_assertBadName frac td _

/-- C3 witness: the unrecognized name `mnist` makes both functions fail with
the name assertion, and the recognized name `stl10` makes neither fire. -/
theorem C3_dataset_name_assert_witness :
    ("mnist" ∉ datasetNames ∧
      prepare_transforms "mnist" = Except.error PyError.assertBadName
      ∧ prepare_datasets "mnist" [] [] "tp" "vp" "image_folder" true (-1) exFS
          = Except.error PyError.assertBadName)
    ∧ ("stl10" ∈ datasetNames ∧
      (∃ T, prepare_transforms "stl10" = Except.ok T)
      ∧ prepare_datasets "stl10" [] [] "tp" "vp" "image_folder" true (-1) exFS
          ≠ Except.error PyError.assertBadName) :=
  ⟨⟨by decide, ((C3_dataset_name_assert "mnist").1 (by decide)).1,
      ((C3_dataset_name_assert "mnist").1 (by decide)).2 [] [] "tp" "vp"
        "image_folder" true (-1) exFS⟩,
   ⟨by decide, ((C3_dataset_name_assert "stl10").2 (by decide)).1,
      ((C3_dataset_name_assert "stl10").2 (by decide)).2 [] [] "tp" "vp"
        "image_folder" true (-1) exFS⟩⟩

/-- C4: whenever `prepare_datasets` returns, the validation dataset it returns
is exactly the one built by the dispatch (`buildVal`, which performs no
subsampling and does not depend on `data_fraction`): the validation sample
list and size are those at construction, for every `data_fraction`. -/
theorem C4_val_dataset_as_built (name : String) (T_train T_val : Transform)
    (tp vp fmt : String) (dl : Bool) (frac : ℚ)
    (fs : String → List (String × Nat)) (t v : TorchDataset)
    (h : prepare_datasets name T_train T_val tp vp fmt dl frac fs
          = Except.ok (t, v)) :
    v = buildVal name vp T_val dl fs := by
  by_cases hmem : name ∈ datasetNames
  · obtain ⟨td, heq⟩ := prepare_datasets_dispatch hmem T_train T_val tp vp fmt dl frac fs
    rw [heq] at h
    exact subsampleStep_val h
  · rw [prepare_datasets_bad hmem] at h
    exact absurd h (by simp)

/-- C4 witness: at `imagenet` with `data_fraction = -1` the returned
validation dataset equals `buildVal`'s construction. -/
theorem C4_val_dataset_as_built_witness :
    ({ cls := "ImageFolder", root := "vp", split := SplitSpec.noSplit,
       download := none, transform := [],
       samples := some (exFS "vp") } : TorchDataset)
      = buildVal "imagenet" "vp" [] true exFS :=
  C4_val_dataset_as_built "imagenet" [] [] "tp" "vp" "image_folder" true (-1) exFS
    { cls := "ImageFolder", root := "tp", split := SplitSpec.noSplit,
      download := none, transform := [], samples := some (exFS "tp") }
    { cls := "ImageFolder", root := "vp", split := SplitSpec.noSplit,
      download := none, transform := [], samples := some (exFS "vp") }
    (by rfl)

/-- C5: two calls to `prepare_datasets` with the same dataset name, the same
training data (`fs₁` and `fs₂` agree on the training path), the same training
transform, download flag and `data_fraction`, produce identical training
sample lists — even if validation paths, validation transforms, `data_format`
or the listings of other paths differ.  The stratified split is a fixed
deterministic function of its inputs at seed 42. -/
theorem C5_subsample_deterministic (name : String) (T_train T_val1 T_val2 : Transform)
    (tp vp1 vp2 fmt1 fmt2 : String) (dl : Bool) (frac : ℚ)
    (fs1 fs2 : String → List (String × Nat)) (hfs : fs1 tp = fs2 tp) :
    trainSamples (prepare_datasets name T_train T_val1 tp vp1 fmt1 dl frac fs1)
      = trainSamples (prepare_datasets name T_train T_val2 tp vp2 fmt2 dl frac fs2) := by
  by_cases hmem : name ∈ datasetNames
  · by_cases hc : name ∈ ["cifar10", "cifar100"]
    · rw [prepare_datasets_eq_cifar hc T_train T_val1 tp vp1 fmt1 dl frac fs1,
        prepare_datasets_eq_cifar hc T_train T_val2 tp vp2 fmt2 dl frac fs2]
      exact trainSamples_subsampleStep frac _ _ _
    · by_cases hs : name = "stl10"
      · subst hs
        rw [prepare_datasets_eq_stl T_train T_val1 tp vp1 fmt1 dl frac fs1,
          prepare_datasets_eq_stl T_train T_val2 tp vp2 fmt2 dl frac fs2]
        exact trainSamples_subsampleStep frac _ _ _
      · have hf : name ∈ folderNames := by
          simp only [datasetNames, List.mem_cons, List.not_mem_nil, or_false] at hmem
          simp only [List.mem_cons, List.not_mem_nil, or_false] at hc
          push_neg at hc
          simp [folderNames, List.mem_cons]
          tauto
        rw [prepare_datasets_eq_folder hf T_train T_val1 tp vp1 fmt1 dl frac fs1,
          prepare_datasets_eq_folder hf T_train T_val2 tp vp2 fmt2 dl frac fs2, hfs]
        exact trainSamples_subsampleStep frac _ _ _
  · rw [prepare_datasets_bad hmem, prepare_datasets_bad hmem]

/-- C5 witness: at `imagenet100` with `data_fraction = 1/2`, two calls whose
folder listings agree on the training path give the same training samples. -/
theorem C5_subsample_deterministic_witness :
    exFS "tp" = exFS "tp" ∧
    trainSamples (prepare_datasets "imagenet100" [] [] "tp" "vp1" "image_folder"
        true (1/2) exFS)
      = trainSamples (prepare_datasets "imagenet100" [] [] "tp" "vp2" "h5"
        true (1/2) exFS) :=
  ⟨rfl, C5_subsample_deterministic "imagenet100" [] [] [] "tp" "vp1" "vp2"
    "image_folder" "h5" true (1/2) exFS exFS rfl⟩

/-- C6: `prepare_dataloaders` configures the training loader with shuffling,
drop-last, pinned memory and the given batch size and worker count, and the
validation loader without shuffling and without drop-last but with the same
pinning, batch size and worker count; consequently every training batch has
exactly the configured size while the validation loader retains a final
smaller batch whenever the item count is not a multiple of the batch size. -/
theorem C6_dataloader_policies (td vd : TorchDataset) (bs nw : Nat) (hbs : 0 < bs) :
    ((prepare_dataloaders td vd bs nw).1.dataset = td
      ∧ (prepare_dataloaders td vd bs nw).1.batch_size = bs
      ∧ (prepare_dataloaders td vd bs nw).1.shuffle = true
      ∧ (prepare_dataloaders td vd bs nw).1.num_workers = nw
      ∧ (prepare_dataloaders td vd bs nw).1.pin_memory = true
      ∧ (prepare_dataloaders td vd bs nw).1.drop_last = true)
    ∧ ((prepare_dataloaders td vd bs nw).2.dataset = vd
      ∧ (prepare_dataloaders td vd bs nw).2.batch_size = bs
      ∧ (prepare_dataloaders td vd bs nw).2.shuffle = false
      ∧ (prepare_dataloaders td vd bs nw).2.num_workers = nw
      ∧ (prepare_dataloaders td vd bs nw).2.pin_memory = true
      ∧ (prepare_dataloaders td vd bs nw).2.drop_last = false)
    ∧ (∀ (items : List Nat) b,
        b ∈ loaderBatches (prepare_dataloaders td vd bs nw).1 items → b.length = bs)
    ∧ (∀ (items : List Nat) b,
        b ∈ loaderBatches (prepare_dataloaders td vd bs nw).2 items → b.length ≤ bs)
    ∧ (∀ items : List Nat, items.length % bs ≠ 0 →
        ∃ b ∈ loaderBatches (prepare_dataloaders td vd bs nw).2 items, b.length < bs) := by
  refine ⟨⟨rfl, rfl, rfl, rfl, rfl, rfl⟩, ⟨rfl, rfl, rfl, rfl, rfl, rfl⟩, ?_, ?_, ?_⟩
  · intro items b hb
    exact loaderBatches_drop_last rfl items b hb
  · intro items b hb
    rw [loaderBatches_no_drop rfl items] at hb
    exact chunks_length_le bs items b hb
  · intro items hmod
    rw [loaderBatches_no_drop rfl items]
    exact chunks_has_rem bs hbs items hmod

/-- C6 witness: with batch size 2 and five items, every training batch has
size exactly 2 and the validation loader has a batch of size 1. -/
theorem C6_dataloader_policies_witness :
    0 < 2 ∧
    (∀ b ∈ loaderBatches
        (prepare_dataloaders
          { cls := "ImageFolder", root := "tp", split := SplitSpec.noSplit,
            download := none, transform := [], samples := some (exFS "tp") }
          { cls := "ImageFolder", root := "vp", split := SplitSpec.noSplit,
            download := none, transform := [], samples := some (exFS "vp") }
          2 4).1 [0, 1, 2, 3, 4], b.length = 2)
    ∧ (∀ items : List Nat, items.length % 2 ≠ 0 →
        ∃ b ∈ loaderBatches
          (prepare_dataloaders
            { cls := "ImageFolder", root := "tp", split := SplitSpec.noSplit,
              download := none, transform := [], samples := some (exFS "tp") }
            { cls := "ImageFolder", root := "vp", split := SplitSpec.noSplit,
              download := none, transform := [], samples := some (exFS "vp") }
            2 4).2 items, b.length < 2) :=
  ⟨by decide,
   fun b hb => (C6_dataloader_policies _ _ 2 4 (by decide)).2.2.1 [0, 1, 2, 3, 4] b hb,
   fun items hmod => (C6_dataloader_policies _ _ 2 4 (by decide)).2.2.2.2 items hmod⟩

/-- C7: for `stl10`, the training dataset is built from the `train` named
split with download hard-coded to `True` (the flag is ignored), while the
validation dataset is built from the `test` named split with download
controlled by the flag. -/
theorem C7_stl10_download_asymmetry (T_train T_val : Transform) (tp vp fmt : String)
    (dl : Bool) (frac : ℚ) (fs : String → List (String × Nat)) (hfrac : frac ≤ 0) :
    prepare_datasets "stl10" T_train T_val tp vp fmt dl frac fs
      = Except.ok
          ({ cls := "STL10", root := tp, split := SplitSpec.named "train",
             download := some true, transform := T_train, samples := none },
           { cls := "STL10", root := vp, split := SplitSpec.named "test",
             download := some dl, transform := T_val, samples := none }) := by
  rw [prepare_datasets_eq_stl T_train T_val tp vp fmt dl frac fs]
  exact subsampleStep_skip hfrac _ _

/-- C7 witness: the statement at `download = false`, showing the training
split still downloads. -/
theorem C7_stl10_download_asymmetry_witness :
    (-1 : ℚ) ≤ 0 ∧
    prepare_datasets "stl10" [] [] "tp" "vp" "image_folder" false (-1) exFS
      = Except.ok
          ({ cls := "STL10", root := "tp", split := SplitSpec.named "train",
             download := some true, transform := [], samples := none },
           { cls := "STL10", root := "vp", split := SplitSpec.named "test",
             download := some false, transform := [], samples := none }) :=
  ⟨by norm_num,
    C7_stl10_download_asymmetry [] [] "tp" "vp" "image_folder" false (-1) exFS
      (by norm_num)⟩

/-- C8: two calls to `prepare_datasets` or to `prepare_data` that differ only
in the `data_format` argument return identical results: the parameter is
accepted but never branches on. -/
theorem C8_data_format_no_effect (name : String) (T_train T_val : Transform)
    (tp vp fmt1 fmt2 : String) (bs nw : Nat) (dl : Bool) (frac : ℚ)
    (fs : String → List (String × Nat)) :
    prepare_datasets name T_train T_val tp vp fmt1 dl frac fs
      = prepare_datasets name T_train T_val tp vp fmt2 dl frac fs
    ∧ prepare_data name tp vp fmt1 bs nw dl frac fs
      = prepare_data name tp vp fmt2 bs nw dl frac fs :=
  ⟨rfl, rfl⟩

/-- C9: on the folder-per-class branch both datasets are `ImageFolder`s over
the root paths, the result does not depend on the download flag, and no
download step exists (`download := none` in the constructed objects). -/
theorem C9_folder_branch_ignores_download (name : String) (hname : name ∈ folderNames)
    (T_train T_val : Transform) (tp vp fmt : String) (d1 d2 : Bool) (frac : ℚ)
    (fs : String → List (String × Nat)) :
    prepare_datasets name T_train T_val tp vp fmt d1 frac fs
      = prepare_datasets name T_train T_val tp vp fmt d2 frac fs
    ∧ (frac ≤ 0 →
        prepare_datasets name T_train T_val tp vp fmt d1 frac fs
          = Except.ok
              ({ cls := "ImageFolder", root := tp, split := SplitSpec.noSplit,
                 download := none, transform := T_train, samples := some (fs tp) },
               { cls := "ImageFolder", root := vp, split := SplitSpec.noSplit,
                 download := none, transform := T_val, samples := some (fs vp) })) := by
  constructor
  · rw [prepare_datasets_eq_folder hname T_train T_val tp vp fmt d1 frac fs,
      prepare_datasets_eq_folder hname T_train T_val tp vp fmt d2 frac fs]
  · intro hf
    rw [prepare_datasets_eq_folder hname T_train T_val tp vp fmt d1 frac fs]
    exact subsampleStep_skip hf _ _

/-- C9 witness: at `custom`, flipping the download flag leaves the result
unchanged, and with `data_fraction = -1` both datasets are the folder
listings. -/
theorem C9_folder_branch_ignores_download_witness :
    (prepare_datasets "custom" [] [] "tp" "vp" "image_folder" true (-1) exFS
      = prepare_datasets "custom" [] [] "tp" "vp" "image_folder" false (-1) exFS)
    ∧ prepare_datasets "custom" [] [] "tp" "vp" "image_folder" true (-1) exFS
        = Except.ok
            ({ cls := "ImageFolder", root := "tp", split := SplitSpec.noSplit,
               download := none, transform := [], samples := some (exFS "tp") },
             { cls := "ImageFolder", root := "vp", split := SplitSpec.noSplit,
               download := none, transform := [], samples := some (exFS "vp") }) :=
  ⟨(C9_folder_branch_ignores_download "custom" (by decide) [] [] "tp" "vp"
      "image_folder" true false (-1) exFS).1,
   (C9_folder_branch_ignores_download "custom" (by decide) [] [] "tp" "vp"
      "image_folder" true false (-1) exFS).2 (by norm_num)⟩

/-- C10: with `data_fraction` in (0, 1), the subsampling step reads
`train_dataset.samples`; the archive-backed classes (`cifar10`, `cifar100`,
`stl10`) define no such attribute, so the call raises `AttributeError`, while
the folder-per-class branch succeeds and returns the subsampled training
set. -/
theorem C10_subsample_requires_samples_attr (name : String)
    (T_train T_val : Transform) (tp vp fmt : String) (dl : Bool) (frac : ℚ)
    (fs : String → List (String × Nat)) (h0 : 0 < frac) (h1 : frac < 1) :
    (name ∈ ["cifar10", "cifar100", "stl10"] →
      prepare_datasets name T_train T_val tp vp fmt dl frac fs
        = Except.error PyError.attributeError)
    ∧ (name ∈ folderNames →
      prepare_datasets name T_train T_val tp vp fmt dl frac fs
        = Except.ok
            ({ cls := "ImageFolder", root := tp, split := SplitSpec.noSplit,
               download := none, transform := T_train,
               samples := some (stratifiedSubsample frac 42 (fs tp)) },
             { cls := "ImageFolder", root := vp, split := SplitSpec.noSplit,
               download := none, transform := T_val, samples := some (fs vp) })) := by
  constructor
  · intro hmem
    by_cases hc : name ∈ ["cifar10", "cifar100"]
    · rw [prepare_datasets_eq_cifar hc T_train T_val tp vp fmt dl frac fs]
      exact subsampleStep_none h0 h1 rfl _
    · have hs : name = "stl10" := by
        simp only [List.mem_cons, List.not_mem_nil, or_false] at hmem hc
        tauto
      subst hs
      rw [prepare_datasets_eq_stl T_train T_val tp vp fmt dl frac fs]
      exact subsampleStep_none h0 h1 rfl _
  · intro hmem
    rw [prepare_datasets_eq_folder hmem T_train T_val tp vp fmt dl frac fs]
    exact subsampleStep_ok h0 h1 rfl _

/-- C10 witness: at `data_fraction = 1/2`, `stl10` raises `AttributeError`
while `imagenet32` returns the subsampled folder dataset. -/
theorem C10_subsample_requires_samples_attr_witness :
    (0:ℚ) < 1/2 ∧ (1/2:ℚ) < 1 ∧
    prepare_datasets "stl10" [] [] "tp" "vp" "image_folder" true (1/2) exFS
      = Except.error PyError.attributeError
    ∧ prepare_datasets "imagenet32" [] [] "tp" "vp" "image_folder" true (1/2) exFS
        = Except.ok
            ({ cls := "ImageFolder", root := "tp", split := SplitSpec.noSplit,
               download := none, transform := [],
               samples := some (stratifiedSubsample (1/2) 42 (exFS "tp")) },
             { cls := "ImageFolder", root := "vp", split := SplitSpec.noSplit,
               download := none, transform := [], samples := some (exFS "vp") }) :=
  ⟨by norm_num, by norm_num,
   (C10_subsample_requires_samples_attr "stl10" [] [] "tp" "vp" "image_folder"
      true (1/2) exFS (by norm_num) (by norm_num)).1 (by decide),
   (C10_subsample_requires_samples_attr "imagenet32" [] [] "tp" "vp" "image_folder"
      true (1/2) exFS (by norm_num) (by norm_num)).2 (by decide)⟩
